import Mathlib

/-!
A shallow embedding, in Lean, of the MCP protocol client (`src/mcp_client.py`)
and the tool-calling orchestration loop (`src/main.py`) of the
ai-foundry-mcp-app repository, together with theorems settling behavioural
claims about session handling, SSE parsing, text extraction, tool listing and
the chat loop.

Python values decoded from JSON are modelled by the inductive type `Json`
(numbers as integers; no claim here depends on fractional values).  Python
library functions used by the source (`json.loads`, the builtin `str`, the
HTTP stack, the completion endpoint) are external collaborators and enter the
embedding as function parameters; Python exceptions are modelled with
`Except`.
-/

namespace AgentSpec

/-- JSON values as produced by Python's `json.loads`: objects are association
lists with distinct keys, arrays are lists.  Numbers are modelled as integers. -/
inductive Json where
  | null
  | bool (b : Bool)
  | num (n : Int)
  | str (s : String)
  | arr (elems : List Json)
  | obj (fields : List (String × Json))

/-- Python exceptions raised by the embedded fragments. -/
inductive PyErr where
  | typeError
  | keyError

/-- Characters removed by Python's `str.strip()` with no arguments. -/
def pySpace (c : Char) : Bool :=
  c = ' ' || c = '\t' || c = '\n' || c = '\r' || c = '\x0b' || c = '\x0c'

/-- Python `s.strip()`: drop leading and trailing whitespace. -/
def pyStrip (s : String) : String :=
  String.mk (((s.data.dropWhile pySpace).reverse.dropWhile pySpace).reverse)

/-- Python `s.startswith(p)`, character for character. -/
def strStarts (p s : String) : Bool :=
  p.data.isPrefixOf s.data

/-- Python `s[n:]`: drop the first `n` characters. -/
def strDropN (n : Nat) (s : String) : String :=
  String.mk (s.data.drop n)

/-- Helper for the Python substring test: does `p` occur inside the list? -/
def strSubAux (p : List Char) : List Char → Bool
  | [] => p.isPrefixOf []
  | c :: cs => p.isPrefixOf (c :: cs) || strSubAux p cs

/-- Python substring test `p in s` on strings. -/
def strContainsSub (p s : String) : Bool :=
  strSubAux p.data s.data

/-- Python membership `key in x` applied to a JSON value: key lookup for
dicts, element equality for lists, substring for strings; `TypeError` for the
non-container values `None`, booleans and numbers. -/
def pyContains (key : String) : Json → Except PyErr Bool
  | .obj fs => .ok (fs.any (fun f => f.1 == key))
  | .arr xs => .ok (xs.any (fun x => match x with | .str s => s == key | _ => false))
  | .str s => .ok (strContainsSub key s)
  | .null | .bool _ | .num _ => .error .typeError

/-- Python dict lookup `d.get(key)` on a JSON object's field list (keys of a
Python dict are distinct, so first match suffices). -/
def lookupField (key : String) : List (String × Json) → Option Json
  | [] => none
  | f :: fs => if f.1 == key then some f.2 else lookupField key fs

/-- Python subscript `x[key]` with a string key: field lookup on dicts
(`KeyError` when absent); `TypeError` on every other value. -/
def pySubscript (key : String) : Json → Except PyErr Json
  | .obj fs =>
    match lookupField key fs with
    | some v => .ok v
    | none => .error .keyError
  | _ => .error .typeError

/-- Python iteration `for item in x`: the elements for lists, one-character
strings for strings, the keys for dicts; `TypeError` for non-iterables. -/
def pyIter : Json → Except PyErr (List Json)
  | .arr xs => .ok xs
  | .str s => .ok (s.data.map (fun c => Json.str (String.mk [c])))
  | .obj fs => .ok (fs.map (fun f => Json.str f.1))
  | .null | .bool _ | .num _ => .error .typeError

/-- Require every part to be a Python string, as `str.join` does. -/
def strList : List Json → Except PyErr (List String)
  | [] => .ok []
  | .str s :: rest => (strList rest).map (fun l => s :: l)
  | _ :: _ => .error .typeError

/-- Interleave a separator, as Python `sep.join` does on a string list. -/
def joinSep (sep : String) : List String → String
  | [] => ""
  | [s] => s
  | s :: rest => s ++ sep ++ joinSep sep rest

/-- Python `sep.join(parts)`: raises `TypeError` unless every part is a
string. -/
def pyJoin (sep : String) (parts : List Json) : Except PyErr String :=
  (strList parts).map (fun l => joinSep sep l)

/-- Python truthiness of a JSON value (`if params:`; empty containers, empty
strings, zero, `False` and `None` are falsy). -/
def Json.truthy : Json → Bool
  | .null => false
  | .bool b => b
  | .num n => n != 0
  | .str s => !s.data.isEmpty
  | .arr xs => !xs.isEmpty
  | .obj fs => !fs.isEmpty

/-- The body of the `for item in contents` loop of `_extract_text_content`
(src/mcp_client.py:122-124): the part appended to `text_parts` for elements
that are dicts whose `type` field equals `"text"`, namely
`item.get("text", "")`. -/
def textPartOf (item : Json) : Option Json :=
  match item with
  | .obj ifields =>
    match lookupField "type" ifields with
    | some (.str t) =>
      if t == "text" then some ((lookupField "text" ifields).getD (.str "")) else none
    | _ => none
  | _ => none

/-- Embedding of `MCPClient._extract_text_content` (src/mcp_client.py:117-126).
The Python builtin `str` is an external collaborator passed in as `pystr`.
If the argument is a dict with a `content` key, the code iterates over that
value, collects `item.get("text", "")` for every element that is a dict whose
`type` field equals `"text"`, and newline-joins the parts; any other argument
is stringified.  Iterating a non-iterable `content` value, or joining a
non-string `text` value, raises `TypeError`. -/
def extract_text_content (pystr : Json → String) (result : Json) : Except PyErr String :=
  match result with
  | .obj fields =>
    if fields.any (fun f => f.1 == "content") then
      match lookupField "content" fields with
      | some contents =>
        match pyIter contents with
        | .error e => .error e
        | .ok items => pyJoin "\n" (items.filterMap textPartOf)
      | none => .error .keyError
    else .ok (pystr result)
  | _ => .ok (pystr result)

/-- Loop of `MCPClient._parse_sse_response` (src/mcp_client.py:57-67) over the
`"\n"`-split lines, threading the `result` accumulator (initially the empty
dict).  `parse` stands for `json.loads`, returning `none` where Python would
raise `json.JSONDecodeError` (which the source catches and skips); the
`"result" in parsed` membership test follows Python semantics and can raise
`TypeError`, which the source does not catch. -/
def parseSSELines (parse : String → Option Json) : List String → Json → Except PyErr Json
  | [], result => .ok result
  | line :: rest, result =>
    if strStarts "data: " line then
      let data := strDropN 6 line
      if !(pyStrip data).data.isEmpty then
        match parse data with
        | none => parseSSELines parse rest result
        | some parsed =>
          match pyContains "result" parsed with
          | .error e => .error e
          | .ok true => parseSSELines parse rest parsed
          | .ok false => parseSSELines parse rest result
      else parseSSELines parse rest result
    else parseSSELines parse rest result

/-- Helper for Python `s.split("\n")`, splitting a character list at every
newline and keeping empty pieces. -/
def splitNlAux : List Char → List String
  | [] => [""]
  | c :: cs =>
    let r := splitNlAux cs
    if c = '\n' then "" :: r
    else
      match r with
      | [] => [String.mk [c]]
      | h :: t => (String.mk [c] ++ h) :: t

/-- Python `s.split("\n")`. -/
def splitNl (s : String) : List String :=
  splitNlAux s.data

/-- Embedding of `MCPClient._parse_sse_response` (src/mcp_client.py:55-68). -/
def parse_sse_response (parse : String → Option Json) (sse_text : String) : Except PyErr Json :=
  parseSSELines parse (splitNl sse_text) (Json.obj [])

/-- Embedding of the update step of `MCPClient.list_tools`
(src/mcp_client.py:84-89): given the JSON-RPC response value returned by
`_make_request` and the previously stored `_tools` value, evaluate
`if "result" in result and "tools" in result["result"]` with Python semantics
(short-circuit; membership and subscripting can raise `TypeError`) and return
the value stored in `_tools` afterwards, which `list_tools` also returns. -/
def list_tools_update (resp : Json) (tools : Json) : Except PyErr Json := do
  let b1 ← pyContains "result" resp
  if b1 then
    let r ← pySubscript "result" resp
    let b2 ← pyContains "tools" r
    if b2 then pySubscript "tools" r
    else pure tools
  else pure tools

/-- The parts of an `httpx.Response` that `_make_request` consults: the status
code, the optional `Mcp-Session-Id` response header, the `Content-Type`
response header (`""` when absent, mirroring `headers.get("Content-Type", "")`)
and the body text.  `response.json()` is modelled as `parse` applied to the
body text. -/
structure HttpResponse where
  status : Nat
  mcpSessionId : Option String
  contentType : String
  bodyText : String

/-- Mutable client state read and written by `_make_request`: `session_id`
starts as `None` (src/mcp_client.py:19). -/
structure ClientState where
  session_id : Option String

/-- Errors that can escape `_make_request`: `httpx.HTTPStatusError` from
`raise_for_status`, a Python error from the SSE parse, or a JSON decode
failure from `response.json()`. -/
inductive ReqErr where
  | httpStatus (status : Nat)
  | py (e : PyErr)
  | jsonDecode

/-- Request headers built at src/mcp_client.py:34-39: the two fixed headers,
plus `Mcp-Session-Id` exactly when `self.session_id` is truthy (Python
truthiness: `None` and the empty string are both falsy). -/
def headersFor (sid : Option String) : List (String × String) :=
  [("Content-Type", "application/json"),
   ("Accept", "application/json, text/event-stream")] ++
  (match sid with
   | some s => if !s.data.isEmpty then [("Mcp-Session-Id", s)] else []
   | none => [])

/-- The request as put on the wire: the method, the `params` member of the
JSON-RPC payload (present only when `params` is truthy,
src/mcp_client.py:31-32), and the request headers.  The random `uuid4`
request id is fresh per request and irrelevant to every claim, so it is not
recorded. -/
structure SentRequest where
  method : String
  params : Option Json
  headers : List (String × String)

/-- The `Mcp-Session-Id` header of a sent request, if attached. -/
def sessionHeaderOf (r : SentRequest) : Option String :=
  (r.headers.find? (fun h => h.1 == "Mcp-Session-Id")).map (fun h => h.2)

/-- Embedding of one call to `MCPClient._make_request`
(src/mcp_client.py:23-53).  The HTTP exchange itself is external, so the
server's response `resp` is an input.  Returns the request as sent, the
client state after the call, and the JSON-RPC response value or the raised
error.  The order follows the source: the request goes out with headers built
from the current state; `raise_for_status` fires on any non-2xx status before
the response headers are examined; a 2xx response's `Mcp-Session-Id` header,
when present, overwrites `session_id` unconditionally (line 45-46); then the
body is decoded as SSE when the `Content-Type` contains `text/event-stream`,
and as plain JSON otherwise. -/
def make_request (parse : String → Option Json) (st : ClientState)
    (method : String) (params : Option Json) (resp : HttpResponse) :
    SentRequest × ClientState × Except ReqErr Json :=
  let sent : SentRequest :=
    { method := method
      params := match params with
                | some p => if p.truthy then some p else none
                | none => none
      headers := headersFor st.session_id }
  if 200 ≤ resp.status ∧ resp.status < 300 then
    let st' : ClientState :=
      match resp.mcpSessionId with
      | some sid => { session_id := some sid }
      | none => st
    let value : Except ReqErr Json :=
      if strContainsSub "text/event-stream" resp.contentType then
        match parse_sse_response parse resp.bodyText with
        | .ok j => .ok j
        | .error e => .error (.py e)
      else
        match parse resp.bodyText with
        | some j => .ok j
        | none => .error .jsonDecode
    (sent, st', value)
  else
    (sent, st, .error (.httpStatus resp.status))

/-- One planned exchange: the method and params the caller passes to
`_make_request`, and the response the server returns for it. -/
structure Exchange where
  method : String
  params : Option Json
  resp : HttpResponse

/-- Run a sequence of `_make_request` calls in one client lifetime, threading
`session_id` and recording every request as sent.  The interactive caller in
`main.py` catches per-turn exceptions and keeps using the client, so a failed
exchange does not stop the sequence. -/
def runRequests (parse : String → Option Json) (st : ClientState) :
    List Exchange → List SentRequest × ClientState
  | [] => ([], st)
  | e :: rest =>
    let step := make_request parse st e.method e.params e.resp
    let tail := runRequests parse step.2.1 rest
    (step.1 :: tail.1, tail.2)

/-- The last session id captured after a sequence of responses: a 2xx response
bearing an `Mcp-Session-Id` header overwrites the capture, every other
response leaves it unchanged. -/
def lastCaptured (acc : Option String) : List HttpResponse → Option String
  | [] => acc
  | r :: rest =>
    lastCaptured
      (if 200 ≤ r.status ∧ r.status < 300 then
         match r.mcpSessionId with
         | some sid => some sid
         | none => acc
       else acc) rest

/-- The session header value that `headersFor` attaches for a stored session
id: the id itself when truthy, nothing otherwise. -/
def attachedOf (sid : Option String) : Option String :=
  match sid with
  | some s => if !s.data.isEmpty then some s else none
  | none => none

/-- One tool call as carried by an assistant completion response
(main.py:112-121): its correlation id, the function name, and the raw
JSON-encoded arguments string. -/
structure ToolCall where
  id : String
  name : String
  arguments : String

/-- The message part of a completion response (`response.choices[0].message`):
optional content and the list of tool calls (`None` and the empty list are
both falsy in the `while assistant_message.tool_calls` test, so both are
modelled by `[]`). -/
structure AssistantMessage where
  content : Option String
  tool_calls : List ToolCall

/-- A message of the conversation history kept in `self.messages`
(main.py:50): the `user` entry appended at main.py:83, `assistant` entries
with their `tool_calls` list (empty for the final entry appended at
main.py:148), and `tool` entries carrying a `tool_call_id` (main.py:132-136). -/
inductive Message where
  | system (content : String)
  | user (content : String)
  | assistant (content : String) (tool_calls : List ToolCall)
  | tool (tool_call_id : String) (content : String)

/-- Errors that abort a `chat` turn: `json.JSONDecodeError` raised by
`json.loads` on a tool call's arguments string (main.py:127) — a value
determined by that string alone, so the embedding records exactly the
offending string; `httpx.HTTPStatusError` from the `tools/call` exchange;
`TypeError` escaping `_extract_text_content`; and exhaustion of the loop fuel
(the Python `while` has no bound — fuel makes the embedding total). -/
inductive ChatErr where
  | jsonDecode (arguments : String)
  | httpStatus (status : Nat)
  | typeError
  | outOfFuel

/-- The fixed system message of `chat` (main.py:86-93). -/
def systemMessage : Message :=
  .system "You are a helpful AI assistant with access to Microsoft Learn documentation.\nUse the available tools to search and fetch official Microsoft documentation when users ask about:\n- Azure services and configurations\n- .NET, C#, Python SDKs\n- Microsoft 365, Power Platform\n- Developer tools and best practices\n\nAlways cite your sources with documentation URLs when providing information from Microsoft docs."

/-- Embedding of the `for tool_call in assistant_message.tool_calls` loop
(main.py:125-136), the body of one EXECUTING_TOOLS round.  For each call, in
order: `json.loads` (the `parse` parameter) on the raw arguments string — a
failure raises before anything else happens for that call; then
`_execute_tool`, i.e. `MCPClient.call_tool` (the `call_tool` parameter, an
external HTTP exchange whose error is the HTTP status) followed by
`_extract_text_content`; then the tool-result message is appended.  The
returned triple is the outcome, the message list (kept even on error, since
`self.messages` is mutated in place), and the trace of `tools/call` network
requests actually issued, as (name, parsed arguments) pairs in issue order. -/
def execBatch (parse : String → Option Json) (call_tool : String → Json → Except Nat Json)
    (pystr : Json → String) :
    List ToolCall → List Message → List (String × Json) →
    Except ChatErr Unit × List Message × List (String × Json)
  | [], msgs, tr => (.ok (), msgs, tr)
  | tc :: rest, msgs, tr =>
    match parse tc.arguments with
    | none => (.error (.jsonDecode tc.arguments), msgs, tr)
    | some args =>
      let tr' := tr ++ [(tc.name, args)]
      match call_tool tc.name args with
      | .error n => (.error (.httpStatus n), msgs, tr')
      | .ok r =>
        match extract_text_content pystr r with
        | .error _ => (.error .typeError, msgs, tr')
        | .ok content =>
          execBatch parse call_tool pystr rest (msgs ++ [.tool tc.id content]) tr'

/-- One run of a single tool call, used to state properties of `execBatch`:
the parsed arguments and extracted text on success, the aborting error
otherwise. -/
def stepRun (parse : String → Option Json) (call_tool : String → Json → Except Nat Json)
    (pystr : Json → String) (tc : ToolCall) : Except ChatErr (Json × String) :=
  match parse tc.arguments with
  | none => .error (.jsonDecode tc.arguments)
  | some args =>
    match call_tool tc.name args with
    | .error n => .error (.httpStatus n)
    | .ok r =>
      match extract_text_content pystr r with
      | .error _ => .error .typeError
      | .ok content => .ok (args, content)

/-- Does `stepRun` succeed on this tool call? -/
def stepOk (parse : String → Option Json) (call_tool : String → Json → Except Nat Json)
    (pystr : Json → String) (tc : ToolCall) : Bool :=
  match stepRun parse call_tool pystr tc with
  | .ok _ => true
  | .error _ => false

/-- The parsed arguments of a successful `stepRun` (junk on failure). -/
def stepArgs (parse : String → Option Json) (call_tool : String → Json → Except Nat Json)
    (pystr : Json → String) (tc : ToolCall) : Json :=
  match stepRun parse call_tool pystr tc with
  | .ok p => p.1
  | .error _ => .null

/-- The extracted text of a successful `stepRun` (junk on failure). -/
def stepText (parse : String → Option Json) (call_tool : String → Json → Except Nat Json)
    (pystr : Json → String) (tc : ToolCall) : String :=
  match stepRun parse call_tool pystr tc with
  | .ok p => p.2
  | .error _ => ""

/-- Embedding of the `while assistant_message.tool_calls` loop of
`AIFoundryMCPAgent.chat` (main.py:107-150) plus the final append and return
(main.py:146-150).  `complete` is the external completion endpoint
`self.ai_client.chat.completions.create`, modelled as a function of the
message list it is given (`[system_msg] + self.messages`); the fixed tool
schema passed alongside is constant within a turn and folded into it.  If the
response has no tool calls, the loop exits: the final content (`content or
""`) is appended as a plain assistant message and returned.  Otherwise the
assistant message with its tool calls is appended (main.py:109-122), the
batch is executed by `execBatch`, and on success the next completion is
requested with the grown history. -/
def chatLoop (complete : List Message → AssistantMessage)
    (parse : String → Option Json) (call_tool : String → Json → Except Nat Json)
    (pystr : Json → String) :
    Nat → List Message → AssistantMessage → List (String × Json) →
    Except ChatErr String × List Message × List (String × Json)
  | 0, msgs, _, tr => (.error .outOfFuel, msgs, tr)
  | fuel + 1, msgs, am, tr =>
    if am.tool_calls.isEmpty then
      let final_content := am.content.getD ""
      (.ok final_content, msgs ++ [.assistant final_content []], tr)
    else
      let msgs1 := msgs ++ [.assistant (am.content.getD "") am.tool_calls]
      match execBatch parse call_tool pystr am.tool_calls msgs1 tr with
      | (.error e, msgs2, tr2) => (.error e, msgs2, tr2)
      | (.ok _, msgs2, tr2) =>
        chatLoop complete parse call_tool pystr fuel msgs2 (complete (systemMessage :: msgs2)) tr2

/-- Embedding of `AIFoundryMCPAgent.chat` (main.py:80-150): append the user
message to the history, request the first completion on
`[system_msg] + self.messages`, and enter the tool-calling loop.  Returns the
turn's outcome, the final state of `self.messages`, and the trace of
`tools/call` requests issued during the turn. -/
def chat (complete : List Message → AssistantMessage)
    (parse : String → Option Json) (call_tool : String → Json → Except Nat Json)
    (pystr : Json → String) (fuel : Nat) (history : List Message) (user_message : String) :
    Except ChatErr String × List Message × List (String × Json) :=
  let msgs := history ++ [Message.user user_message]
  chatLoop complete parse call_tool pystr fuel msgs (complete (systemMessage :: msgs)) []

/-! Spec-side definitions.  The definitions below are written from the words
of the specification and of the claims, to be compared with the embedded
source functions above. -/

/-- Keep the last element of a list, with a default for the empty list — the
spec's "keep the last payload that contains a `result` key". -/
def lastD (d : Json) : List Json → Json
  | [] => d
  | x :: xs => lastD x xs

/-- The payload string of an SSE line that the source attempts to decode, if
any: the line must start with `data: ` and the payload must strip to
something nonempty. -/
def framePayload (line : String) : Option String :=
  if strStarts "data: " line then
    let data := strDropN 6 line
    if !(pyStrip data).data.isEmpty then some data else none
  else none

/-- The claim's notion of a result-bearing frame: a `data:` line whose payload
decodes to a JSON object containing a `result` key. -/
def resultFrameOf (parse : String → Option Json) (line : String) : Option Json :=
  match framePayload line with
  | none => none
  | some data =>
    match parse data with
    | some (Json.obj fs) =>
      if fs.any (fun f => f.1 == "result") then some (Json.obj fs) else none
    | _ => none

/-- Does this SSE line's payload either fail to decode or decode to a JSON
object?  (The non-object decodable payloads are the ones on which the
source's `"result" in parsed` test deviates from key lookup.) -/
def lineDecodesToObject (parse : String → Option Json) (line : String) : Bool :=
  match framePayload line with
  | none => true
  | some data =>
    match parse data with
    | none => true
    | some (Json.obj _) => true
    | some _ => false

/-- The result-bearing frames of an SSE body, in order of appearance. -/
def resultFrames (parse : String → Option Json) (sse_text : String) : List Json :=
  (splitNl sse_text).filterMap (resultFrameOf parse)

/-- Does every decodable `data:` payload of the body decode to a JSON
object? -/
def framesDecodeToObjects (parse : String → Option Json) (sse_text : String) : Bool :=
  (splitNl sse_text).all (lineDecodesToObject parse)

/-- Is the result a dict with a `content` key?  This is the branch condition
the source actually tests (src/mcp_client.py:119). -/
def hasContentKey : Json → Bool
  | .obj fields => fields.any (fun f => f.1 == "content")
  | _ => false

/-- The text contributed by one content block according to the claim: the
`text` field (defaulting to the empty string) of elements that are dicts with
`type` equal to `"text"`. -/
def textOfItem (item : Json) : Option String :=
  match item with
  | .obj ifields =>
    match lookupField "type" ifields with
    | some (.str t) =>
      if t == "text" then
        some (match (lookupField "text" ifields).getD (.str "") with
              | .str s => s
              | _ => "")
      else none
    | _ => none
  | _ => none

/-- Does every `type = "text"` element of the items carry a string `text`
field (or no `text` field, defaulting to the empty string)?  Non-string
`text` values make Python's `"\n".join` raise `TypeError`. -/
def textsAreStrings (items : List Json) : Bool :=
  items.all (fun item =>
    match textPartOf item with
    | some (.str _) => true
    | some _ => false
    | none => true)

/-- The claim's shape test for a `tools/list` response on which the source's
membership tests are defined: an object whose `result` field, when present,
is itself an object. -/
def listToolsSafeShape : Json → Bool
  | .obj fs =>
    match lookupField "result" fs with
    | none => true
    | some (.obj _) => true
    | some _ => false
  | _ => false

/-- The JSON values on which a Python membership test `key in x` raises
`TypeError`: `None`, booleans and numbers. -/
def nonContainer : Json → Bool
  | .null | .bool _ | .num _ => true
  | _ => false

/-- The stored-tools replacement value the claim describes: the `tools` field
of the response's `result` object, when the response has that shape. -/
def toolsOf : Json → Option Json
  | .obj fs =>
    match lookupField "result" fs with
    | some (.obj rfs) => lookupField "tools" rfs
    | _ => none
  | _ => none

/-- Tool-result messages produced by one fully successful batch, in batch
order, each correlated to its invocation's id. -/
def batchResults (parse : String → Option Json) (call_tool : String → Json → Except Nat Json)
    (pystr : Json → String) (tcs : List ToolCall) : List Message :=
  tcs.map (fun tc => Message.tool tc.id (stepText parse call_tool pystr tc))

/-- The `tools/call` network requests issued by one fully successful batch, in
batch order. -/
def batchTrace (parse : String → Option Json) (call_tool : String → Json → Except Nat Json)
    (pystr : Json → String) (tcs : List ToolCall) : List (String × Json) :=
  tcs.map (fun tc => (tc.name, stepArgs parse call_tool pystr tc))

/-! Concrete instances used by witnesses and counterexamples.  Functions that
stand for Python library collaborators (`json.loads`, `str`) are modelled on
exactly the concrete inputs they are applied to. -/

/-- A single-quote character as a string (Python's `str` of a dict quotes its
keys and string values with it). -/
def sq : String := (Char.ofNat 39).toString

/-- Model of the Python builtin `str` on the one concrete value whose exact
string representation a counterexample needs: `str` applied to the dict that
maps `content` to the string `ab` yields the usual single-quoted dict
display.  On every other value this stand-in returns the empty string (no
theorem depends on those values). -/
def pystrModel : Json → String
  | .obj [("content", .str "ab")] =>
    "\x7b" ++ sq ++ "content" ++ sq ++ ": " ++ sq ++ "ab" ++ sq ++ "\x7d"
  | _ => ""

/-- Model of `json.loads` on the payload strings appearing in the SSE bodies
used below: the integer literal `5` and an object literal carrying a `result`
key; everything else fails to decode. -/
def parseSse0 : String → Option Json := fun s =>
  if s = "5" then some (Json.num 5)
  else if s = "\x7b\"result\": 1\x7d" then some (Json.obj [("result", Json.num 1)])
  else if s = "\x7b\"x\": 2\x7d" then some (Json.obj [("x", Json.num 2)])
  else none

/-- Model of `json.loads` for the chat witnesses: the arguments string is the
empty object literal; anything else (in particular `"not json"`) fails to
decode. -/
def parseChat0 : String → Option Json := fun s =>
  if s = "\x7b\x7d" then some (Json.obj []) else none

/-- A tool server that answers every call with one text content block
carrying the tool's own name — so the extracted results of a batch reveal the
execution order. -/
def callToolEcho : String → Json → Except Nat Json := fun name _ =>
  .ok (Json.obj [("content", Json.arr
    [Json.obj [("type", Json.str "text"), ("text", Json.str name)]])])

/-- A tool server on which the tool `boom` fails with HTTP 500 and every
other tool succeeds with an empty-object result. -/
def callTool0 : String → Json → Except Nat Json := fun name _ =>
  if name = "boom" then .error 500 else .ok (Json.obj [])

/-- An assistant response carrying two tool calls, in order search then
fetch. -/
def amTwoCalls : AssistantMessage :=
  ⟨some "", [⟨"call-1", "microsoft_docs_search", "\x7b\x7d"⟩,
             ⟨"call-2", "microsoft_docs_fetch", "\x7b\x7d"⟩]⟩

/-- A completion endpoint that answers the first completion call of a turn
(system message plus one user message) with `amTwoCalls` and everything else
with terminal text. -/
def completeEcho : List Message → AssistantMessage := fun ms =>
  if ms.length = 2 then amTwoCalls else ⟨some "done", []⟩

/-- Round-one assistant response of the staged two-round scenario: one
successful search call. -/
def am1W : AssistantMessage := ⟨some "", [⟨"c1", "microsoft_docs_search", "\x7b\x7d"⟩]⟩

/-- Round-two assistant response of the staged scenario: a successful fetch
call followed by the failing `boom` call. -/
def am2W : AssistantMessage :=
  ⟨some "", [⟨"c2", "microsoft_docs_fetch", "\x7b\x7d"⟩, ⟨"c3", "boom", "\x7b\x7d"⟩]⟩

/-- A completion endpoint staged by history length: the first call of the
turn yields `am1W`, the second (after one completed round has appended two
messages) yields `am2W`. -/
def completeStaged : List Message → AssistantMessage := fun ms =>
  if ms.length = 2 then am1W else if ms.length = 4 then am2W else ⟨some "done", []⟩

/-- A completion endpoint whose first response carries a single tool call,
with the given tool name, whose arguments string `"not json"` is not
decodable. -/
def completeBadArgs (toolName : String) : List Message → AssistantMessage := fun ms =>
  if ms.length = 2 then ⟨some "", [⟨"call-1", toolName, "not json"⟩]⟩ else ⟨some "done", []⟩

/-- An assistant response with a successful search call followed by a call
whose arguments string is malformed. -/
def amPreBad : AssistantMessage :=
  ⟨some "", [⟨"c1", "microsoft_docs_search", "\x7b\x7d"⟩, ⟨"c2", "badtool", "not json"⟩]⟩

/-- A completion endpoint whose first response is `amPreBad`. -/
def completePreBad : List Message → AssistantMessage := fun ms =>
  if ms.length = 2 then amPreBad else ⟨some "done", []⟩

/-- A 200 response with the given optional `Mcp-Session-Id` header, a JSON
content type and the body `null`. -/
def okResp (sid : Option String) : HttpResponse := ⟨200, sid, "application/json", "null"⟩

/-- Model of `json.loads` for the transport witnesses: the body `null`
decodes to `None`; nothing else is decoded. -/
def parseNull0 : String → Option Json := fun s => if s = "null" then some Json.null else none

/-- A client lifetime of three exchanges: an initialize that is granted
session id `S1`, then a tools list and a tools call answered without a
session header. -/
def exchanges3 : List Exchange :=
  [⟨"initialize", some (Json.obj [("protocolVersion", Json.str "2024-11-05")]), okResp (some "S1")⟩,
   ⟨"tools/list", none, okResp none⟩,
   ⟨"tools/call", some (Json.obj [("name", Json.str "microsoft_docs_search")]), okResp none⟩]

/-- The spec's own content-block example: a text block "A", an image block,
a text block "B". -/
def exampleBlocks : List Json :=
  [Json.obj [("type", Json.str "text"), ("text", Json.str "A")],
   Json.obj [("type", Json.str "image"), ("data", Json.str "i")],
   Json.obj [("type", Json.str "text"), ("text", Json.str "B")]]

/-- A tool result carrying the example content blocks. -/
def exampleResult : Json := Json.obj [("content", Json.arr exampleBlocks)]

/-! General lemmas about the embedded functions, shared by the claim
theorems below. -/

theorem lookupField_isSome_eq_any (key : String) (fs : List (String × Json)) :
    (lookupField key fs).isSome = fs.any (fun f => f.1 == key) := by
  induction fs with
  | nil => rfl
  | cons f fs ih =>
    cases h : f.1 == key <;> simp [lookupField, h, ih]

theorem textOfItem_eq_map (item : Json) :
    textOfItem item =
      (textPartOf item).map (fun v => match v with | .str s => s | _ => "") := by
  cases item with
  | null => rfl
  | bool b => rfl
  | num n => rfl
  | str s => rfl
  | arr xs => rfl
  | obj ifields =>
    simp only [textOfItem, textPartOf]
    cases lookupField "type" ifields with
    | none => rfl
    | some v =>
      cases v with
      | null => rfl
      | bool b => rfl
      | num n => rfl
      | arr xs => rfl
      | obj fs => rfl
      | str t =>
        cases ht : t == "text" <;> simp [ht]

theorem strList_textParts (items : List Json) :
    textsAreStrings items = true →
    strList (items.filterMap textPartOf) = .ok (items.filterMap textOfItem) := by
  induction items with
  | nil => intro _; rfl
  | cons item rest ih =>
    intro h
    rw [textsAreStrings, List.all_cons, Bool.and_eq_true] at h
    obtain ⟨h1, h2⟩ := h
    have ihr := ih h2
    cases hp : textPartOf item with
    | none =>
      have ht : textOfItem item = none := by rw [textOfItem_eq_map, hp]; rfl
      simp [List.filterMap_cons, hp, ht, ihr]
    | some v =>
      rw [hp] at h1
      cases v with
      | str s =>
        have ht : textOfItem item = some s := by rw [textOfItem_eq_map, hp]; rfl
        simp [List.filterMap_cons, hp, ht, strList, ihr, Except.map]
      | null => simp at h1
      | bool b => simp at h1
      | num n => simp at h1
      | arr xs => simp at h1
      | obj fs => simp at h1

theorem parseSSELines_objects (parse : String → Option Json) :
    ∀ (lines : List String) (acc : Json),
      lines.all (lineDecodesToObject parse) = true →
      parseSSELines parse lines acc = .ok (lastD acc (lines.filterMap (resultFrameOf parse))) := by
  intro lines
  induction lines with
  | nil => intro acc _; rfl
  | cons line rest ih =>
    intro acc h
    rw [List.all_cons, Bool.and_eq_true] at h
    obtain ⟨h1, h2⟩ := h
    cases hs : strStarts "data: " line with
    | false =>
      have hf : resultFrameOf parse line = none := by
        simp [resultFrameOf, framePayload, hs]
      simp [parseSSELines, hs, List.filterMap_cons, hf, ih acc h2]
    | true =>
      cases he : (pyStrip (strDropN 6 line)).data.isEmpty with
      | true =>
        have hf : resultFrameOf parse line = none := by
          simp [resultFrameOf, framePayload, hs, he]
        simp [parseSSELines, hs, he, List.filterMap_cons, hf, ih acc h2]
      | false =>
        cases hp : parse (strDropN 6 line) with
        | none =>
          have hf : resultFrameOf parse line = none := by
            simp [resultFrameOf, framePayload, hs, he, hp]
          simp [parseSSELines, hs, he, hp, List.filterMap_cons, hf, ih acc h2]
        | some parsed =>
          simp only [lineDecodesToObject, framePayload, hs, he, hp, Bool.not_false, if_true] at h1
          cases parsed with
          | null => simp at h1
          | bool b => simp at h1
          | num n => simp at h1
          | str s => simp at h1
          | arr xs => simp at h1
          | obj pfs =>
            cases hc : pfs.any (fun f => f.1 == "result") with
            | true =>
              have hf : resultFrameOf parse line = some (Json.obj pfs) := by
                simp [resultFrameOf, framePayload, hs, he, hp, hc]
              simp [parseSSELines, hs, he, hp, pyContains, hc, List.filterMap_cons, hf,
                ih (Json.obj pfs) h2, lastD]
            | false =>
              have hf : resultFrameOf parse line = none := by
                simp [resultFrameOf, framePayload, hs, he, hp, hc]
              simp [parseSSELines, hs, he, hp, pyContains, hc, List.filterMap_cons, hf, ih acc h2]

theorem make_request_sent (parse : String → Option Json) (st : ClientState)
    (m : String) (p : Option Json) (r : HttpResponse) :
    (make_request parse st m p r).1 =
      ⟨m, (match p with | some q => if q.truthy then some q else none | none => none),
       headersFor st.session_id⟩ := by
  by_cases hc : 200 ≤ r.status ∧ r.status < 300 <;>
    simp [make_request, hc]

theorem make_request_session (parse : String → Option Json) (st : ClientState)
    (m : String) (p : Option Json) (r : HttpResponse) :
    (make_request parse st m p r).2.1.session_id =
      (if 200 ≤ r.status ∧ r.status < 300 then
         match r.mcpSessionId with
         | some sid => some sid
         | none => st.session_id
       else st.session_id) := by
  by_cases hc : 200 ≤ r.status ∧ r.status < 300 <;>
    cases hm : r.mcpSessionId <;> simp [make_request, hc, hm]

theorem sessionHeader_headersFor (sid : Option String) (m : String) (p : Option Json) :
    sessionHeaderOf ⟨m, p, headersFor sid⟩ = attachedOf sid := by
  cases sid with
  | none => rfl
  | some s =>
    cases hs : s.data.isEmpty with
    | true => simp [sessionHeaderOf, headersFor, attachedOf, hs, List.find?]
    | false => simp [sessionHeaderOf, headersFor, attachedOf, hs, List.find?]

theorem runRequests_session (parse : String → Option Json) :
    ∀ (xs : List Exchange) (st : ClientState),
      (runRequests parse st xs).2.session_id =
        lastCaptured st.session_id (xs.map (fun e => e.resp)) := by
  intro xs
  induction xs with
  | nil => intro st; rfl
  | cons e rest ih =>
    intro st
    show (runRequests parse (make_request parse st e.method e.params e.resp).2.1 rest).2.session_id = _
    rw [ih, make_request_session]
    rfl

theorem runRequests_headers (parse : String → Option Json) :
    ∀ (xs : List Exchange) (st : ClientState) (i : Nat), i < xs.length →
      sessionHeaderOf (((runRequests parse st xs).1).getD i ⟨"", none, []⟩) =
        attachedOf (lastCaptured st.session_id ((xs.take i).map (fun e => e.resp))) := by
  intro xs
  induction xs with
  | nil => intro st i h; simp at h
  | cons e rest ih =>
    intro st i h
    cases i with
    | zero =>
      show sessionHeaderOf (make_request parse st e.method e.params e.resp).1
        = attachedOf st.session_id
      rw [make_request_sent]
      exact sessionHeader_headersFor _ _ _
    | succ j =>
      have hj : j < rest.length := by simpa using h
      show sessionHeaderOf
          (((runRequests parse (make_request parse st e.method e.params e.resp).2.1 rest).1).getD j
            ⟨"", none, []⟩) = _
      rw [ih _ j hj, make_request_session]
      rfl

/-! Claim theorems. -/

/-- C5 (code bug): the spec requires `_extract_text_content` to terminate and
return a string for every input value whatsoever — "the guaranteed-safe path
from arbitrary tool output to displayable text".  The code instead raises
`TypeError` whenever the `content` value of the result dict is not iterable:
on the tool result that maps `content` to the number `5`, the loop
`for item in contents` (src/mcp_client.py:122) iterates an `int` and fails.
This theorem evaluates the embedded code at that failing input. -/
theorem extract_text_raises_on_noniterable_content :
    extract_text_content pystrModel (Json.obj [("content", Json.num 5)]) = .error .typeError := rfl

/-- C6 counterexample: the claim's dichotomy is "object with a `content`
array" versus "any other shape, stringified".  The code's actual branch test
is only "dict with a `content` key" (src/mcp_client.py:119).  First conjunct
pair: on the dict mapping `content` to the string `"ab"` — not a `content`
array, so per the claim the result's string representation — the code
iterates the characters of `"ab"`, collects nothing and returns `""`, which
differs from the (nonempty) string representation.  Third conjunct: on an
object with a genuine `content` array whose text block carries the number
`5` in its `text` field, the claim promises the newline-joined text fields,
but the code raises `TypeError` from `"\n".join`. -/
theorem extract_text_dichotomy_counterexample :
    extract_text_content pystrModel (Json.obj [("content", Json.str "ab")]) = .ok ""
  ∧ pystrModel (Json.obj [("content", Json.str "ab")]) ≠ ""
  ∧ extract_text_content pystrModel
      (Json.obj [("content",
        Json.arr [Json.obj [("type", Json.str "text"), ("text", Json.num 5)]])])
      = .error .typeError :=
  ⟨rfl, by decide, rfl⟩

/-- C6 (corrected): for every result that is an object with a `content` array
all of whose `type = "text"` elements carry a string `text` field (or no
`text` field, which defaults to the empty string), extraction returns the
newline-joined concatenation of those text fields in order; and for every
result that is not a dict with a `content` key, it returns the result's
string representation.  (A dict whose `content` key holds a non-array is
processed by the same iteration rather than stringified, and a text block
with a non-string `text` value raises `TypeError` — see the
counterexample.) -/
theorem extract_text_amended (pystr : Json → String) (result : Json) :
    (∀ (fields : List (String × Json)) (items : List Json),
       result = Json.obj fields →
       lookupField "content" fields = some (Json.arr items) →
       textsAreStrings items = true →
       extract_text_content pystr result = .ok (joinSep "\n" (items.filterMap textOfItem)))
  ∧ (hasContentKey result = false →
       extract_text_content pystr result = .ok (pystr result)) := by
  constructor
  · intro fields items hres hlook htexts
    subst hres
    have hany : (fields.any (fun f => f.1 == "content")) = true := by
      rw [← lookupField_isSome_eq_any, hlook]; rfl
    simp only [extract_text_content, hany, if_true, hlook, pyIter]
    rw [pyJoin, strList_textParts items htexts]
    rfl
  · intro hno
    cases result with
    | null => rfl
    | bool b => rfl
    | num n => rfl
    | str s => rfl
    | arr xs => rfl
    | obj fields =>
      simp only [hasContentKey] at hno
      simp [extract_text_content, hno]

/-- Witness for the C6 theorem: the spec's own example — content blocks
text "A", an image block, text "B" — extracts to "A\nB", and a bare number
(no `content` key) is stringified. -/
theorem extract_text_amended_witness :
    exampleResult = Json.obj [("content", Json.arr exampleBlocks)]
  ∧ lookupField "content" [("content", Json.arr exampleBlocks)] = some (Json.arr exampleBlocks)
  ∧ textsAreStrings exampleBlocks = true
  ∧ extract_text_content pystrModel exampleResult = .ok "A\nB"
  ∧ hasContentKey (Json.num 7) = false
  ∧ extract_text_content pystrModel (Json.num 7) = .ok (pystrModel (Json.num 7)) :=
  ⟨rfl, rfl, rfl,
   (extract_text_amended pystrModel exampleResult).1
     [("content", Json.arr exampleBlocks)] exampleBlocks rfl rfl rfl,
   rfl,
   (extract_text_amended pystrModel (Json.num 7)).2 rfl⟩

/-- C7 counterexample: the claim says a `tools/list` response lacking the
expected shape leaves the stored tool set unchanged and returns it without
raising.  On the response object whose `result` field is the number `5` —
a response lacking the expected shape — the code instead raises `TypeError`
from the membership test `"tools" in result["result"]`
(src/mcp_client.py:87). -/
theorem list_tools_raises_counterexample :
    list_tools_update (Json.obj [("result", Json.num 5)]) (Json.arr [Json.str "old"])
      = .error .typeError := rfl

/-- C7 (corrected): for every response that is an object and whose `result`
field, when present, is itself an object, `list_tools` behaves as the claim
says (first conjunct): a well-shaped response — a `result` object containing
a `tools` field — replaces the stored tool set wholesale with that field's
value, and any other safe-shaped response leaves the previous tool set
unchanged, without raising.  Outside those shapes the claim's "without
raising" fails along Python membership semantics: a response (second
conjunct), or a present `result` value (third conjunct), that is a number,
boolean or `None` makes the membership tests of src/mcp_client.py:87 raise
`TypeError` — the counterexample exhibits this — while a string response not
containing `"result"` as a substring (fourth conjunct), or a string `result`
value not containing `"tools"` (fifth conjunct), fails the membership test
and silently leaves the stored tools unchanged. -/
theorem list_tools_update_amended (resp tools : Json) :
    (listToolsSafeShape resp = true →
       list_tools_update resp tools = .ok ((toolsOf resp).getD tools))
  ∧ (nonContainer resp = true → list_tools_update resp tools = .error .typeError)
  ∧ (∀ fs v, resp = Json.obj fs → lookupField "result" fs = some v → nonContainer v = true →
       list_tools_update resp tools = .error .typeError)
  ∧ (∀ s, resp = Json.str s → strContainsSub "result" s = false →
       list_tools_update resp tools = .ok tools)
  ∧ (∀ fs s, resp = Json.obj fs → lookupField "result" fs = some (Json.str s) →
       strContainsSub "tools" s = false →
       list_tools_update resp tools = .ok tools) := by
  refine ⟨?_, ?_, ?_, ?_, ?_⟩
  · intro h
    cases resp with
    | null => simp [listToolsSafeShape] at h
    | bool b => simp [listToolsSafeShape] at h
    | num n => simp [listToolsSafeShape] at h
    | str s => simp [listToolsSafeShape] at h
    | arr xs => simp [listToolsSafeShape] at h
    | obj fs =>
      cases hr : lookupField "result" fs with
      | none =>
        have hany : (fs.any (fun f => f.1 == "result")) = false := by
          rw [← lookupField_isSome_eq_any, hr]; rfl
        simp [list_tools_update, pyContains, hany, toolsOf, hr, Bind.bind, Except.bind,
          pure, Except.pure]
      | some v =>
        rw [listToolsSafeShape, hr] at h
        have hany : (fs.any (fun f => f.1 == "result")) = true := by
          rw [← lookupField_isSome_eq_any, hr]; rfl
        cases v with
        | null => simp at h
        | bool b => simp at h
        | num n => simp at h
        | str s => simp at h
        | arr xs => simp at h
        | obj rfs =>
          cases ht : lookupField "tools" rfs with
          | none =>
            have hany2 : (rfs.any (fun f => f.1 == "tools")) = false := by
              rw [← lookupField_isSome_eq_any, ht]; rfl
            simp [list_tools_update, pyContains, pySubscript, hany, hany2, hr, ht, toolsOf,
              Bind.bind, Except.bind, pure, Except.pure]
          | some t =>
            have hany2 : (rfs.any (fun f => f.1 == "tools")) = true := by
              rw [← lookupField_isSome_eq_any, ht]; rfl
            simp [list_tools_update, pyContains, pySubscript, hany, hany2, hr, ht, toolsOf,
              Bind.bind, Except.bind, pure, Except.pure]
  · intro h
    cases resp with
    | null => rfl
    | bool b => rfl
    | num n => rfl
    | str s => simp [nonContainer] at h
    | arr xs => simp [nonContainer] at h
    | obj fs => simp [nonContainer] at h
  · intro fs v hres hr hv
    subst hres
    have hany : (fs.any (fun f => f.1 == "result")) = true := by
      rw [← lookupField_isSome_eq_any, hr]; rfl
    cases v with
    | null =>
      simp [list_tools_update, pyContains, pySubscript, hany, hr,
        Bind.bind, Except.bind, pure, Except.pure]
    | bool b =>
      simp [list_tools_update, pyContains, pySubscript, hany, hr,
        Bind.bind, Except.bind, pure, Except.pure]
    | num n =>
      simp [list_tools_update, pyContains, pySubscript, hany, hr,
        Bind.bind, Except.bind, pure, Except.pure]
    | str s => simp [nonContainer] at hv
    | arr xs => simp [nonContainer] at hv
    | obj rfs => simp [nonContainer] at hv
  · intro s hres hsub
    subst hres
    simp [list_tools_update, pyContains, hsub, Bind.bind, Except.bind, pure, Except.pure]
  · intro fs s hres hr hsub
    subst hres
    have hany : (fs.any (fun f => f.1 == "result")) = true := by
      rw [← lookupField_isSome_eq_any, hr]; rfl
    simp [list_tools_update, pyContains, pySubscript, hany, hr, hsub,
      Bind.bind, Except.bind, pure, Except.pure]

/-- Witness for the C7 theorem, exercising each conjunct: a well-shaped
response replaces the stored tools wholesale; a shapeless but object-shaped
response leaves them unchanged; the response `5` and the response whose
`result` is `5` raise `TypeError`; the string response `"hello"` and the
response whose `result` is the string `"xyz"` fail the substring membership
tests and leave the stored tools unchanged without raising. -/
theorem list_tools_update_amended_witness :
    listToolsSafeShape (Json.obj [("result", Json.obj [("tools", Json.arr [Json.str "t1"])])]) = true
  ∧ list_tools_update (Json.obj [("result", Json.obj [("tools", Json.arr [Json.str "t1"])])])
      (Json.arr []) = .ok (Json.arr [Json.str "t1"])
  ∧ listToolsSafeShape (Json.obj [("jsonrpc", Json.str "2.0")]) = true
  ∧ list_tools_update (Json.obj [("jsonrpc", Json.str "2.0")]) (Json.arr [Json.str "old"])
      = .ok (Json.arr [Json.str "old"])
  ∧ nonContainer (Json.num 5) = true
  ∧ list_tools_update (Json.num 5) (Json.arr [Json.str "old"]) = .error .typeError
  ∧ strContainsSub "result" "hello" = false
  ∧ list_tools_update (Json.str "hello") (Json.arr [Json.str "old"]) = .ok (Json.arr [Json.str "old"])
  ∧ strContainsSub "tools" "xyz" = false
  ∧ list_tools_update (Json.obj [("result", Json.str "xyz")]) (Json.arr [Json.str "old"])
      = .ok (Json.arr [Json.str "old"]) :=
  ⟨rfl,
   (list_tools_update_amended (Json.obj [("result", Json.obj [("tools", Json.arr [Json.str "t1"])])])
     (Json.arr [])).1 rfl,
   rfl,
   (list_tools_update_amended (Json.obj [("jsonrpc", Json.str "2.0")])
     (Json.arr [Json.str "old"])).1 rfl,
   rfl,
   (list_tools_update_amended (Json.num 5) (Json.arr [Json.str "old"])).2.1 rfl,
   rfl,
   (list_tools_update_amended (Json.str "hello") (Json.arr [Json.str "old"])).2.2.2.1 "hello" rfl rfl,
   rfl,
   (list_tools_update_amended (Json.obj [("result", Json.str "xyz")])
     (Json.arr [Json.str "old"])).2.2.2.2 [("result", Json.str "xyz")] "xyz" rfl rfl rfl⟩

/-- C2 counterexample: the claim promises that for every SSE body with
several `data:` frames the parse returns the last payload containing a
`result` key.  On the body whose frames are `5` and an object with a
`result` key — where `json.loads("5")` succeeds with the integer `5` — the
membership test `"result" in parsed` (src/mcp_client.py:64) raises an
uncaught `TypeError` instead, so the parse aborts rather than return the
last result-bearing payload. -/
theorem sse_parse_counterexample :
    parse_sse_response parseSse0 "data: 5\ndata: \x7b\"result\": 1\x7d" = .error .typeError := rfl

/-- C2 (corrected): provided every `data:` frame payload either fails to
decode as JSON or decodes to a JSON object, the SSE parse returns the last
payload containing a `result` key (the empty object when no frame has one);
result-less frames are discarded and undecodable frames are silently skipped.
A frame decoding to a JSON number, boolean or null instead aborts the parse
with `TypeError` (see the counterexample), and string or array payloads are
tested by Python substring or element membership rather than key lookup. -/
theorem sse_parse_amended (parse : String → Option Json) (sse_text : String)
    (h : framesDecodeToObjects parse sse_text = true) :
    parse_sse_response parse sse_text = .ok (lastD (Json.obj []) (resultFrames parse sse_text)) :=
  parseSSELines_objects parse (splitNl sse_text) (Json.obj []) h

/-- Witness for the C2 theorem: a body whose first frame is a result-less
object, second frame is undecodable, third line is blank and last frame
carries `result` parses to that last frame's payload. -/
theorem sse_parse_amended_witness :
    framesDecodeToObjects parseSse0
      "data: \x7b\"x\": 2\x7d\ndata: nope\n\ndata: \x7b\"result\": 1\x7d" = true
  ∧ parse_sse_response parseSse0
      "data: \x7b\"x\": 2\x7d\ndata: nope\n\ndata: \x7b\"result\": 1\x7d"
      = .ok (Json.obj [("result", Json.num 1)]) :=
  ⟨rfl,
   sse_parse_amended parseSse0 "data: \x7b\"x\": 2\x7d\ndata: nope\n\ndata: \x7b\"result\": 1\x7d" rfl⟩

/-- C3 counterexample.  First two conjuncts: the server grants the empty
string as session id on the first response — it is captured into the stored
state (first conjunct) — yet the second request carries no `Mcp-Session-Id`
header (second conjunct), where the claim demands the captured id on every
subsequent request.  Third conjunct: after responses granting `A` then `B`,
the third request carries `B`, so the id `A` captured from the first
response is not attached to every subsequent request either. -/
theorem session_attachment_counterexample :
    (runRequests parseNull0 ⟨none⟩ [⟨"initialize", none, okResp (some "")⟩,
        ⟨"tools/list", none, okResp none⟩]).2.session_id = some ""
  ∧ sessionHeaderOf (((runRequests parseNull0 ⟨none⟩ [⟨"initialize", none, okResp (some "")⟩,
        ⟨"tools/list", none, okResp none⟩]).1).getD 1 ⟨"", none, []⟩) = none
  ∧ sessionHeaderOf (((runRequests parseNull0 ⟨none⟩ [⟨"a", none, okResp (some "A")⟩,
        ⟨"b", none, okResp (some "B")⟩, ⟨"c", none, okResp none⟩]).1).getD 2 ⟨"", none, []⟩)
      = some "B" :=
  ⟨rfl, rfl, rfl⟩

/-- C3 (corrected): over any client lifetime — any sequence of
`_make_request` exchanges from the fresh state — the `Mcp-Session-Id` header
of the i-th request is exactly the truthiness-filtered most recent session id
captured from the earlier (2xx) responses: the most recently captured id when
that id is nonempty, and no header at all both before the first capture
(`lastCaptured none [] = none`) and while the captured id is the empty
string.  The claim's "a captured id is attached to every subsequent request"
holds only until a later response overwrites the capture and only for
nonempty ids — see the counterexample. -/
theorem session_header_tracks_last_capture (parse : String → Option Json)
    (xs : List Exchange) (i : Nat) (h : i < xs.length) :
    sessionHeaderOf (((runRequests parse ⟨none⟩ xs).1).getD i ⟨"", none, []⟩) =
      attachedOf (lastCaptured none ((xs.take i).map (fun e => e.resp))) :=
  runRequests_headers parse xs ⟨none⟩ i h

/-- Witness for the C3 theorem on the three-exchange lifetime `exchanges3`:
the third request carries the id `S1` granted by the first response, and the
first request — issued before any capture — carries no session header. -/
theorem session_header_tracks_last_capture_witness :
    2 < exchanges3.length
  ∧ sessionHeaderOf (((runRequests parseNull0 ⟨none⟩ exchanges3).1).getD 2 ⟨"", none, []⟩)
      = attachedOf (lastCaptured none ((exchanges3.take 2).map (fun e => e.resp)))
  ∧ attachedOf (lastCaptured none ((exchanges3.take 2).map (fun e => e.resp))) = some "S1"
  ∧ sessionHeaderOf (((runRequests parseNull0 ⟨none⟩ exchanges3).1).getD 0 ⟨"", none, []⟩) = none :=
  ⟨by decide,
   session_header_tracks_last_capture parseNull0 exchanges3 2 (by decide),
   rfl,
   (session_header_tracks_last_capture parseNull0 exchanges3 0 (by decide)).trans rfl⟩

/-- C4 counterexample: the stored session id is set to `A` by the first
response, and the second response changes it to `B` — the id is not
immutable once set. -/
theorem session_immutability_counterexample :
    (runRequests parseNull0 ⟨none⟩ [⟨"initialize", none, okResp (some "A")⟩]).2.session_id
      = some "A"
  ∧ (runRequests parseNull0 ⟨none⟩ [⟨"initialize", none, okResp (some "A")⟩,
       ⟨"tools/list", none, okResp (some "B")⟩]).2.session_id = some "B" :=
  ⟨rfl, rfl⟩

/-- C4 (corrected): the stored session id is not immutable once set — every
2xx response that carries an `Mcp-Session-Id` header overwrites it (last
write wins, src/mcp_client.py:45-46), responses without the header leave it
unchanged, and nothing (including `close()`, which only closes the HTTP
client) ever clears it within the object's lifetime.  After any sequence of
exchanges the stored id is the last captured one. -/
theorem session_id_last_write_wins (parse : String → Option Json) (xs : List Exchange) :
    (runRequests parse ⟨none⟩ xs).2.session_id = lastCaptured none (xs.map (fun e => e.resp)) :=
  runRequests_session parse xs ⟨none⟩

/-- C10 (confirmed): the `Mcp-Session-Id` request header is attached exactly
when the stored session id is truthy (first conjunct: on every request it
equals `attachedOf` of the stored id, which filters `None` and the empty
string); a response granting the empty string as session id is captured into
the stored state (second conjunct); a client whose stored id is the empty
string attaches no session header to any request (third conjunct); and the
request headers built from the empty-string state are byte-for-byte the
headers of a session-less client (fourth conjunct). -/
theorem empty_session_captured_never_attached (parse : String → Option Json) :
    (∀ (st : ClientState) (m : String) (p : Option Json) (r : HttpResponse),
       sessionHeaderOf (make_request parse st m p r).1 = attachedOf st.session_id)
  ∧ (∀ (st : ClientState) (m : String) (p : Option Json) (r : HttpResponse),
       200 ≤ r.status → r.status < 300 → r.mcpSessionId = some "" →
       (make_request parse st m p r).2.1.session_id = some "")
  ∧ (∀ (m : String) (p : Option Json) (r : HttpResponse),
       sessionHeaderOf (make_request parse ⟨some ""⟩ m p r).1 = none)
  ∧ headersFor (some "") = headersFor none := by
  refine ⟨?_, ?_, ?_, rfl⟩
  · intro st m p r
    rw [make_request_sent]
    exact sessionHeader_headersFor _ _ _
  · intro st m p r h1 h2 h3
    rw [make_request_session, if_pos ⟨h1, h2⟩, h3]
  · intro m p r
    rw [make_request_sent]
    exact (sessionHeader_headersFor (some "") _ _).trans rfl

/-- Witness for the C10 theorem: a concrete 200 response granting the empty
session id is captured; the resulting client sends its next request without
the header; a client holding the nonempty id `sess-1` attaches it. -/
theorem empty_session_captured_never_attached_witness :
    (200 ≤ (okResp (some "")).status ∧ (okResp (some "")).status < 300
       ∧ (okResp (some "")).mcpSessionId = some "")
  ∧ (make_request parseNull0 ⟨none⟩ "initialize" none (okResp (some ""))).2.1.session_id = some ""
  ∧ sessionHeaderOf (make_request parseNull0 ⟨some ""⟩ "tools/list" none (okResp none)).1 = none
  ∧ sessionHeaderOf (make_request parseNull0 ⟨some "sess-1"⟩ "tools/list" none (okResp none)).1
      = attachedOf (some "sess-1") :=
  ⟨⟨by decide, by decide, rfl⟩,
   (empty_session_captured_never_attached parseNull0).2.1 ⟨none⟩ "initialize" none
     (okResp (some "")) (by decide) (by decide) rfl,
   (empty_session_captured_never_attached parseNull0).2.2.1 "tools/list" none (okResp none),
   (empty_session_captured_never_attached parseNull0).1 ⟨some "sess-1"⟩ "tools/list" none
     (okResp none)⟩

theorem execBatch_all_ok (parse : String → Option Json)
    (call_tool : String → Json → Except Nat Json) (pystr : Json → String) :
    ∀ (tcs : List ToolCall) (msgs : List Message) (tr : List (String × Json)),
      (∀ tc ∈ tcs, stepOk parse call_tool pystr tc = true) →
      execBatch parse call_tool pystr tcs msgs tr =
        (.ok (), msgs ++ batchResults parse call_tool pystr tcs,
         tr ++ batchTrace parse call_tool pystr tcs) := by
  intro tcs
  induction tcs with
  | nil => intro msgs tr _; simp [execBatch, batchResults, batchTrace]
  | cons tc rest ih =>
    intro msgs tr h
    have htc := h tc (List.mem_cons_self tc rest)
    have hrest : ∀ tc' ∈ rest, stepOk parse call_tool pystr tc' = true :=
      fun tc' h' => h tc' (List.mem_cons_of_mem _ h')
    cases hp : parse tc.arguments with
    | none => simp [stepOk, stepRun, hp] at htc
    | some args =>
      cases hc : call_tool tc.name args with
      | error n => simp [stepOk, stepRun, hp, hc] at htc
      | ok r =>
        cases he : extract_text_content pystr r with
        | error e => simp [stepOk, stepRun, hp, hc, he] at htc
        | ok content =>
          have hT : stepText parse call_tool pystr tc = content := by
            simp [stepText, stepRun, hp, hc, he]
          have hA : stepArgs parse call_tool pystr tc = args := by
            simp [stepArgs, stepRun, hp, hc, he]
          simp [execBatch, hp, hc, he, batchResults, batchTrace, hT, hA,
            ih (msgs ++ [Message.tool tc.id content]) (tr ++ [(tc.name, args)]) hrest]

theorem execBatch_parse_fail (parse : String → Option Json)
    (call_tool : String → Json → Except Nat Json) (pystr : Json → String) :
    ∀ (pre : List ToolCall) (bad : ToolCall) (post : List ToolCall)
      (msgs : List Message) (tr : List (String × Json)),
      (∀ tc ∈ pre, stepOk parse call_tool pystr tc = true) →
      parse bad.arguments = none →
      execBatch parse call_tool pystr (pre ++ bad :: post) msgs tr =
        (.error (.jsonDecode bad.arguments),
         msgs ++ batchResults parse call_tool pystr pre,
         tr ++ batchTrace parse call_tool pystr pre) := by
  intro pre
  induction pre with
  | nil =>
    intro bad post msgs tr _ hbad
    simp [execBatch, hbad, batchResults, batchTrace]
  | cons tc rest ih =>
    intro bad post msgs tr h hbad
    have htc := h tc (List.mem_cons_self tc rest)
    have hrest : ∀ tc' ∈ rest, stepOk parse call_tool pystr tc' = true :=
      fun tc' h' => h tc' (List.mem_cons_of_mem _ h')
    cases hp : parse tc.arguments with
    | none => simp [stepOk, stepRun, hp] at htc
    | some args =>
      cases hc : call_tool tc.name args with
      | error n => simp [stepOk, stepRun, hp, hc] at htc
      | ok r =>
        cases he : extract_text_content pystr r with
        | error e => simp [stepOk, stepRun, hp, hc, he] at htc
        | ok content =>
          have hT : stepText parse call_tool pystr tc = content := by
            simp [stepText, stepRun, hp, hc, he]
          have hA : stepArgs parse call_tool pystr tc = args := by
            simp [stepArgs, stepRun, hp, hc, he]
          simp only [List.cons_append, execBatch, hp, hc, he, List.append_eq]
          rw [ih bad post (msgs ++ [Message.tool tc.id content]) (tr ++ [(tc.name, args)]) hrest hbad]
          simp [batchResults, batchTrace, hT, hA]

theorem execBatch_call_fail (parse : String → Option Json)
    (call_tool : String → Json → Except Nat Json) (pystr : Json → String) :
    ∀ (pre : List ToolCall) (bad : ToolCall) (post : List ToolCall)
      (msgs : List Message) (tr : List (String × Json)) (args : Json) (status : Nat),
      (∀ tc ∈ pre, stepOk parse call_tool pystr tc = true) →
      parse bad.arguments = some args →
      call_tool bad.name args = .error status →
      execBatch parse call_tool pystr (pre ++ bad :: post) msgs tr =
        (.error (.httpStatus status),
         msgs ++ batchResults parse call_tool pystr pre,
         tr ++ batchTrace parse call_tool pystr pre ++ [(bad.name, args)]) := by
  intro pre
  induction pre with
  | nil =>
    intro bad post msgs tr args status _ hargs hfail
    simp [execBatch, hargs, hfail, batchResults, batchTrace]
  | cons tc rest ih =>
    intro bad post msgs tr args status h hargs hfail
    have htc := h tc (List.mem_cons_self tc rest)
    have hrest : ∀ tc' ∈ rest, stepOk parse call_tool pystr tc' = true :=
      fun tc' h' => h tc' (List.mem_cons_of_mem _ h')
    cases hp : parse tc.arguments with
    | none => simp [stepOk, stepRun, hp] at htc
    | some targs =>
      cases hc : call_tool tc.name targs with
      | error n => simp [stepOk, stepRun, hp, hc] at htc
      | ok r =>
        cases he : extract_text_content pystr r with
        | error e => simp [stepOk, stepRun, hp, hc, he] at htc
        | ok content =>
          have hT : stepText parse call_tool pystr tc = content := by
            simp [stepText, stepRun, hp, hc, he]
          have hA : stepArgs parse call_tool pystr tc = targs := by
            simp [stepArgs, stepRun, hp, hc, he]
          simp only [List.cons_append, execBatch, hp, hc, he, List.append_eq]
          rw [ih bad post (msgs ++ [Message.tool tc.id content]) (tr ++ [(tc.name, targs)])
            args status hrest hargs hfail]
          simp [batchResults, batchTrace, hT, hA]

theorem chatLoop_round (complete : List Message → AssistantMessage)
    (parse : String → Option Json) (call_tool : String → Json → Except Nat Json)
    (pystr : Json → String) (fuel : Nat) (msgs : List Message)
    (am : AssistantMessage) (tr : List (String × Json))
    (hne : am.tool_calls ≠ [])
    (hok : ∀ tc ∈ am.tool_calls, stepOk parse call_tool pystr tc = true) :
    chatLoop complete parse call_tool pystr (fuel + 1) msgs am tr =
      chatLoop complete parse call_tool pystr fuel
        (msgs ++ [Message.assistant (am.content.getD "") am.tool_calls]
              ++ batchResults parse call_tool pystr am.tool_calls)
        (complete (systemMessage ::
          (msgs ++ [Message.assistant (am.content.getD "") am.tool_calls]
                ++ batchResults parse call_tool pystr am.tool_calls)))
        (tr ++ batchTrace parse call_tool pystr am.tool_calls) := by
  have hemp : am.tool_calls.isEmpty = false := by
    cases h : am.tool_calls with
    | nil => exact absurd h hne
    | cons a l => rfl
  rw [chatLoop, if_neg (by simp [hemp])]
  dsimp only
  rw [execBatch_all_ok parse call_tool pystr am.tool_calls
    (msgs ++ [Message.assistant (am.content.getD "") am.tool_calls]) tr hok]

theorem not_mem_batchResults (parse : String → Option Json)
    (call_tool : String → Json → Except Nat Json) (pystr : Json → String)
    (tcs : List ToolCall) (i : String) (s : String)
    (h : ∀ tc ∈ tcs, tc.id ≠ i) : Message.tool i s ∉ batchResults parse call_tool pystr tcs := by
  intro hmem
  rw [batchResults, List.mem_map] at hmem
  obtain ⟨tc, htc, heq⟩ := hmem
  injection heq with h1 h2
  exact h tc htc h1

/-- C1 (confirmed): when an assistant completion response carries a nonempty
batch of tool invocations, all of which execute successfully, one round of
the orchestration loop issues a `tools/call` for each invocation in exactly
the order the model emitted them (the trace grows by `batchTrace`, the
(name, parsed-arguments) pairs in batch order), appends exactly one
tool-result message per invocation, correlated by that invocation's id, in
the same order (`batchResults`), after the assistant message carrying the
batch — and only then issues the next completion call, whose input is the
history extended with every one of those results.  Executions are strictly
sequential by construction of the embedded loop, mirroring the source's
single-threaded `for` loop (main.py:125-136). -/
theorem batch_executed_in_order (complete : List Message → AssistantMessage)
    (parse : String → Option Json) (call_tool : String → Json → Except Nat Json)
    (pystr : Json → String) (fuel : Nat) (msgs : List Message)
    (am : AssistantMessage) (tr : List (String × Json))
    (hne : am.tool_calls ≠ [])
    (hok : ∀ tc ∈ am.tool_calls, stepOk parse call_tool pystr tc = true) :
    chatLoop complete parse call_tool pystr (fuel + 1) msgs am tr =
      chatLoop complete parse call_tool pystr fuel
        (msgs ++ [Message.assistant (am.content.getD "") am.tool_calls]
              ++ batchResults parse call_tool pystr am.tool_calls)
        (complete (systemMessage ::
          (msgs ++ [Message.assistant (am.content.getD "") am.tool_calls]
                ++ batchResults parse call_tool pystr am.tool_calls)))
        (tr ++ batchTrace parse call_tool pystr am.tool_calls) :=
  chatLoop_round complete parse call_tool pystr fuel msgs am tr hne hok

/-- Witness for the C1 theorem: the spec's scenario B — a response carrying
[search, fetch] produces the two tool-result messages in exactly that order
(the echoing tool server makes the order visible in the result texts), and
the two network calls in that order, before the next completion. -/
theorem batch_executed_in_order_witness :
    amTwoCalls.tool_calls ≠ []
  ∧ (∀ tc ∈ amTwoCalls.tool_calls, stepOk parseChat0 callToolEcho pystrModel tc = true)
  ∧ chatLoop completeEcho parseChat0 callToolEcho pystrModel 1 [Message.user "hi"] amTwoCalls []
      = chatLoop completeEcho parseChat0 callToolEcho pystrModel 0
          ([Message.user "hi"] ++ [Message.assistant "" amTwoCalls.tool_calls]
            ++ [Message.tool "call-1" "microsoft_docs_search",
                Message.tool "call-2" "microsoft_docs_fetch"])
          (completeEcho (systemMessage ::
            ([Message.user "hi"] ++ [Message.assistant "" amTwoCalls.tool_calls]
              ++ [Message.tool "call-1" "microsoft_docs_search",
                  Message.tool "call-2" "microsoft_docs_fetch"])))
          ([] ++ [("microsoft_docs_search", Json.obj []), ("microsoft_docs_fetch", Json.obj [])]) :=
  ⟨List.cons_ne_nil _ _, by decide,
   batch_executed_in_order completeEcho parseChat0 callToolEcho pystrModel 0
     [Message.user "hi"] amTwoCalls [] (List.cons_ne_nil _ _) (by decide)⟩

/-- C8 counterexample: the claim says the parse error is surfaced to the
caller with the offending tool name.  The source raises the bare
`json.JSONDecodeError` of `json.loads(tool_call.function.arguments)`
(main.py:127), a value determined by the arguments string alone: two turns
that are identical except for the offending tool's name surface exactly the
same error value, so the error cannot identify the tool. -/
theorem malformed_args_error_lacks_tool_name :
    (chat (completeBadArgs "microsoft_docs_search") parseChat0 callTool0 pystrModel 3 [] "hi").1
      = .error (.jsonDecode "not json")
  ∧ (chat (completeBadArgs "microsoft_docs_fetch") parseChat0 callTool0 pystrModel 3 [] "hi").1
      = .error (.jsonDecode "not json") :=
  ⟨rfl, rfl⟩

/-- C8 (corrected): for every tool invocation whose arguments string is not
parseable as JSON, the turn aborts with the JSON parse error before any
`tools/call` network request is made for that invocation: the earlier
invocations of the batch were executed and answered, the turn's result is
the decode error, and the turn's network trace contains no entry for the
offending tool.  The surfaced error is determined by the offending arguments
string alone and does not carry the tool name (see the counterexample). -/
theorem malformed_args_abort_before_call (complete : List Message → AssistantMessage)
    (parse : String → Option Json) (call_tool : String → Json → Except Nat Json)
    (pystr : Json → String) (fuel : Nat) (history : List Message) (um : String)
    (am : AssistantMessage) (pre post : List ToolCall) (bad : ToolCall)
    (h1 : complete (systemMessage :: (history ++ [Message.user um])) = am)
    (hsplit : am.tool_calls = pre ++ bad :: post)
    (hpre : ∀ tc ∈ pre, stepOk parse call_tool pystr tc = true)
    (hbad : parse bad.arguments = none)
    (hname : ∀ tc ∈ pre, tc.name ≠ bad.name) :
    chat complete parse call_tool pystr (fuel + 1) history um =
      (.error (.jsonDecode bad.arguments),
       history ++ [Message.user um]
         ++ [Message.assistant (am.content.getD "") am.tool_calls]
         ++ batchResults parse call_tool pystr pre,
       batchTrace parse call_tool pystr pre)
  ∧ (∀ j, (bad.name, j) ∉ batchTrace parse call_tool pystr pre) := by
  have hemp : am.tool_calls.isEmpty = false := by
    rw [hsplit]; cases pre <;> rfl
  constructor
  · show chatLoop complete parse call_tool pystr (fuel + 1) (history ++ [Message.user um])
      (complete (systemMessage :: (history ++ [Message.user um]))) [] = _
    rw [h1, chatLoop, if_neg (by simp [hemp])]
    dsimp only
    rw [hsplit]
    rw [execBatch_parse_fail parse call_tool pystr pre bad post _ _ hpre hbad]
    simp
  · intro j hmem
    rw [batchTrace, List.mem_map] at hmem
    obtain ⟨tc, htc, heq⟩ := hmem
    have := congrArg Prod.fst heq
    exact hname tc htc this

/-- Witness for the C8 theorem: a batch [search with good arguments, badtool
with arguments "not json"] executes the search, issues its single network
request, then aborts with the bare decode error — the trace has no entry for
badtool. -/
theorem malformed_args_abort_before_call_witness :
    completePreBad (systemMessage :: ([] ++ [Message.user "hi"])) = amPreBad
  ∧ parseChat0 "not json" = none
  ∧ chat completePreBad parseChat0 callTool0 pystrModel 1 [] "hi" =
      (.error (.jsonDecode "not json"),
       [Message.user "hi",
        Message.assistant "" amPreBad.tool_calls,
        Message.tool "c1" ""],
       [("microsoft_docs_search", Json.obj [])])
  ∧ (∀ j, ("badtool", j) ∉ ([("microsoft_docs_search", Json.obj [])] : List (String × Json))) :=
  ⟨rfl, rfl,
   (malformed_args_abort_before_call completePreBad parseChat0 callTool0 pystrModel 0 [] "hi"
     amPreBad [⟨"c1", "microsoft_docs_search", "\x7b\x7d"⟩] []
     ⟨"c2", "badtool", "not json"⟩ rfl rfl (by decide) rfl (by decide)).1,
   (malformed_args_abort_before_call completePreBad parseChat0 callTool0 pystrModel 0 [] "hi"
     amPreBad [⟨"c1", "microsoft_docs_search", "\x7b\x7d"⟩] []
     ⟨"c2", "badtool", "not json"⟩ rfl rfl (by decide) rfl (by decide)).2⟩

/-- C9 (confirmed): when a `tools/call` exchange of the second round of a
turn gets a non-success HTTP status, the turn aborts with that HTTP error;
the history keeps the user message, the complete first round (its assistant
message and every one of its tool results), the second round's assistant
message and the results of the invocations that completed before the failing
one; exactly one network request was issued for the failing call and none
after it; and no tool-result message correlated to the failed invocation's
id is fabricated anywhere in the turn's appended messages. -/
theorem tool_http_error_aborts_turn (complete : List Message → AssistantMessage)
    (parse : String → Option Json) (call_tool : String → Json → Except Nat Json)
    (pystr : Json → String) (fuel : Nat) (history : List Message) (um : String)
    (am1 am2 : AssistantMessage) (pre post : List ToolCall) (bad : ToolCall)
    (args : Json) (status : Nat)
    (h1 : complete (systemMessage :: (history ++ [Message.user um])) = am1)
    (hne1 : am1.tool_calls ≠ [])
    (hok1 : ∀ tc ∈ am1.tool_calls, stepOk parse call_tool pystr tc = true)
    (h2 : complete (systemMessage ::
        (history ++ [Message.user um]
          ++ [Message.assistant (am1.content.getD "") am1.tool_calls]
          ++ batchResults parse call_tool pystr am1.tool_calls)) = am2)
    (hsplit : am2.tool_calls = pre ++ bad :: post)
    (hpre : ∀ tc ∈ pre, stepOk parse call_tool pystr tc = true)
    (hargs : parse bad.arguments = some args)
    (hfail : call_tool bad.name args = .error status)
    (hid : ∀ tc ∈ am1.tool_calls ++ pre, tc.id ≠ bad.id) :
    chat complete parse call_tool pystr (fuel + 2) history um =
      (.error (.httpStatus status),
       history ++ [Message.user um]
         ++ [Message.assistant (am1.content.getD "") am1.tool_calls]
         ++ batchResults parse call_tool pystr am1.tool_calls
         ++ [Message.assistant (am2.content.getD "") am2.tool_calls]
         ++ batchResults parse call_tool pystr pre,
       batchTrace parse call_tool pystr am1.tool_calls
         ++ batchTrace parse call_tool pystr pre ++ [(bad.name, args)])
  ∧ (∀ s, Message.tool bad.id s ∉
       ([Message.assistant (am1.content.getD "") am1.tool_calls]
         ++ batchResults parse call_tool pystr am1.tool_calls
         ++ [Message.assistant (am2.content.getD "") am2.tool_calls]
         ++ batchResults parse call_tool pystr pre)) := by
  have hemp2 : am2.tool_calls.isEmpty = false := by
    rw [hsplit]; cases pre <;> rfl
  constructor
  · show chatLoop complete parse call_tool pystr (fuel + 1 + 1) (history ++ [Message.user um])
      (complete (systemMessage :: (history ++ [Message.user um]))) [] = _
    rw [h1]
    rw [chatLoop_round complete parse call_tool pystr (fuel + 1)
      (history ++ [Message.user um]) am1 [] hne1 hok1]
    rw [h2, chatLoop, if_neg (by simp [hemp2])]
    dsimp only
    rw [hsplit]
    rw [execBatch_call_fail parse call_tool pystr pre bad post _ _ args status hpre hargs hfail]
    simp
  · intro s hmem
    rcases List.mem_append.mp hmem with hx | hbrp
    · rcases List.mem_append.mp hx with hy | ha2
      · rcases List.mem_append.mp hy with ha1 | hbr1
        · rcases List.mem_singleton.mp ha1 with h
          exact Message.noConfusion h
        · exact not_mem_batchResults parse call_tool pystr am1.tool_calls bad.id s
            (fun tc htc => hid tc (List.mem_append_left _ htc)) hbr1
      · rcases List.mem_singleton.mp ha2 with h
        exact Message.noConfusion h
    · exact not_mem_batchResults parse call_tool pystr pre bad.id s
        (fun tc htc => hid tc (List.mem_append_right _ htc)) hbrp

/-- Witness for the C9 theorem: the staged two-round scenario.  Round one
(search) completes and appends its result; in round two the fetch call
succeeds and `boom` gets HTTP 500: the turn ends with the 500 error, the
history keeps the user message, both rounds' assistant messages, the round
one result and the fetch result, with no message for `boom`'s id `c3`; the
trace shows exactly three requests, ending at `boom`. -/
theorem tool_http_error_aborts_turn_witness :
    completeStaged (systemMessage :: ([] ++ [Message.user "hi"])) = am1W
  ∧ (∀ tc ∈ am1W.tool_calls, stepOk parseChat0 callTool0 pystrModel tc = true)
  ∧ am2W.tool_calls = [⟨"c2", "microsoft_docs_fetch", "\x7b\x7d"⟩]
      ++ (⟨"c3", "boom", "\x7b\x7d"⟩ : ToolCall) :: []
  ∧ parseChat0 "\x7b\x7d" = some (Json.obj [])
  ∧ callTool0 "boom" (Json.obj []) = .error 500
  ∧ chat completeStaged parseChat0 callTool0 pystrModel 2 [] "hi" =
      (.error (.httpStatus 500),
       [Message.user "hi",
        Message.assistant "" am1W.tool_calls,
        Message.tool "c1" "",
        Message.assistant "" am2W.tool_calls,
        Message.tool "c2" ""],
       [("microsoft_docs_search", Json.obj []),
        ("microsoft_docs_fetch", Json.obj []),
        ("boom", Json.obj [])]) :=
  ⟨rfl, by decide, rfl, rfl, rfl,
   (tool_http_error_aborts_turn completeStaged parseChat0 callTool0 pystrModel 0 [] "hi" am1W am2W
     [⟨"c2", "microsoft_docs_fetch", "\x7b\x7d"⟩] [] ⟨"c3", "boom", "\x7b\x7d"⟩
     (Json.obj []) 500 rfl (List.cons_ne_nil _ _) (by decide) rfl rfl (by decide)
     rfl rfl (by decide)).1⟩

end AgentSpec

